import Mathlib

/-!
Shallow embedding of the fleetTrack backend (`track/models.py`,
`track/serializers.py`, `track/views.py`).

Conventions of the embedding:
  * Database rows are Lean structures; the database is a `Store` of lists kept
    in insertion order (matching default queryset order for models without a
    `Meta.ordering`), with `nextId` playing the role of the auto-increment
    primary-key counter.
  * Python/SQL floats are modelled as `ℚ`.
  * SQL `SUM` returns `NULL` on zero aggregated rows: modelled as `Option ℚ`
    with `none` for `NULL`; Python's `x or 0.0` is `pyOrQ` (note `0.0` is
    falsy in Python, hence the `x = 0` test).
  * Timestamps and dates are integers.
  * Exceptions escaping a request handler are `Except PyErr`; Django's
    `@transaction.atomic` is modelled by the endpoint wrappers restoring the
    initial store whenever the wrapped computation returns an error.
-/

/-- `track/models.py` `Location`: address is unique; latitude must lie in
[-90, 90] and longitude in [-180, 180] (field validators). -/
structure Location where
  id : Nat
  address : String
  latitude : ℚ
  longitude : ℚ
  city : String := ""
  loc_state : String := ""
  country : String := "USA"
  postal_code : String := ""
deriving Repr, DecidableEq

/-- `track/models.py` `Driver`. -/
structure Driver where
  id : Nat
  driver_initial : String
  full_name : String
  license_number : String
deriving Repr, DecidableEq

/-- `track/models.py` `Carrier`. -/
structure Carrier where
  id : Nat
  name : String
  dot_number : String
deriving Repr, DecidableEq

/-- `track/models.py` `Vehicle`: belongs to one `Carrier` (stored as its id). -/
structure Vehicle where
  id : Nat
  truck_number : String
  carrier : Nat
deriving Repr, DecidableEq

/-- `track/models.py` `Trip`: foreign keys stored as row ids; the six
`total_*` metrics default to `0.0`. -/
structure Trip where
  id : Nat
  date : Int
  driver : Nat
  co_driver : Option Nat := none
  vehicle : Nat
  shipper_and_commodity : String := ""
  cycle_rule : String := "70hr/8day"
  total_miles_driving : ℚ := 0
  total_mileage_today : ℚ := 0
  total_driving_hours : ℚ := 0
  total_on_duty_hours : ℚ := 0
  total_off_duty_hours : ℚ := 0
  total_sleeper_hours : ℚ := 0
  remarks : String := ""
  is_completed : Bool := false
deriving Repr, DecidableEq

/-- `track/models.py` `TripEvent`: foreign keys to `Trip` and `Location`
stored as row ids. -/
structure TripEvent where
  id : Nat
  trip : Nat
  location : Nat
  event_type : String
  timestamp : Int
  duration : ℚ := 0
  miles_driven : ℚ := 0
  notes : String := ""
deriving Repr, DecidableEq

/-- The relational store: one list per table, in insertion order, plus the
primary-key counter. -/
structure Store where
  locations : List Location := []
  drivers : List Driver := []
  carriers : List Carrier := []
  vehicles : List Vehicle := []
  trips : List Trip := []
  events : List TripEvent := []
  nextId : Nat := 1
deriving Repr, DecidableEq

/-- `TripEvent.EVENT_TYPE_CHOICES` keys (`track/models.py`). -/
def eventTypeKeys : List String :=
  ["driving", "on_duty", "off_duty", "sleeper", "rest_break", "fuel_stop",
   "meal_break", "inspection", "loading", "unloading", "other"]

/-- The event-type filter used by `Trip.destination_location`
(`track/models.py`): `event_type__in=["driving_start", "driving_end"]`. -/
def drivingBoundaryTypes : List String := ["driving_start", "driving_end"]

/-- The reverse relation `trip.events`: all events of a given trip. -/
def eventsOf (st : Store) (tripId : Nat) : List TripEvent :=
  st.events.filter (fun e => e.trip == tripId)

/-- SQL `SUM(f)` over a list of rows: `NULL` (`none`) when there are no rows,
else the sum. -/
def sqlSum (f : TripEvent → ℚ) (l : List TripEvent) : Option ℚ :=
  match l with
  | [] => none
  | _ => some ((l.map f).foldl (· + ·) 0)

/-- Python `v or d` for an optional float `v`: `None` and `0.0` are falsy. -/
def pyOrQ (v : Option ℚ) (d : ℚ) : ℚ :=
  match v with
  | none => d
  | some x => if x = 0 then d else x

/-- `Trip.calculate_totals` (`track/models.py`), the pure part: recompute the
five aggregated fields of this trip from its events (conditional `SUM`
aggregates, each defaulted with `or 0.0`). `total_mileage_today` is not
recomputed. -/
def calcTotals (st : Store) (t : Trip) : Trip :=
  let evs := eventsOf st t.id
  let driving_hours := sqlSum (fun e => e.duration)
    (evs.filter (fun e => e.event_type == "driving"))
  let on_duty_hours := sqlSum (fun e => e.duration)
    (evs.filter (fun e => e.event_type == "on_duty"))
  let off_duty_hours := sqlSum (fun e => e.duration)
    (evs.filter (fun e => e.event_type == "off_duty"))
  let sleeper_hours := sqlSum (fun e => e.duration)
    (evs.filter (fun e => e.event_type == "sleeper"))
  let total_miles := sqlSum (fun e => e.miles_driven)
    (evs.filter (fun e => e.event_type == "driving"))
  { t with
    total_driving_hours := pyOrQ driving_hours 0
    total_on_duty_hours := pyOrQ on_duty_hours 0
    total_off_duty_hours := pyOrQ off_duty_hours 0
    total_sleeper_hours := pyOrQ sleeper_hours 0
    total_miles_driving := pyOrQ total_miles 0 }

/-- `Trip.save()` on an existing row: replace the stored row with the same
primary key. -/
def saveTrip (st : Store) (t : Trip) : Store :=
  { st with trips := st.trips.map (fun u => if u.id == t.id then t else u) }

/-- The trailing `self.save()` of `Trip.calculate_totals`: recompute the
parent trip's totals and persist them. -/
def calculate_totals (st : Store) (tripId : Nat) : Store :=
  match st.trips.find? (fun t => t.id == tripId) with
  | some t => saveTrip st (calcTotals st t)
  | none => st

/-- `TripEvent.save` (`track/models.py`) for a fresh row: `super().save()`
inserts the row, then `self.trip.calculate_totals()` runs. -/
def tripEventInsert (st : Store) (e : TripEvent) : Store :=
  calculate_totals { st with events := st.events ++ [e] } e.trip

/-- `TripEvent.save` for an existing row: `super().save()` updates the row in
place, then `self.trip.calculate_totals()` runs. -/
def tripEventUpdateSave (st : Store) (e : TripEvent) : Store :=
  calculate_totals
    { st with events := st.events.map (fun u => if u.id == e.id then e else u) }
    e.trip

/-- The specification's sum: total of `f` over the trip's events of one
event type, as a plain (never-null) rational. -/
def specSum (evs : List TripEvent) (tid : Nat) (ty : String) (f : TripEvent → ℚ) : ℚ :=
  ((evs.filter (fun e => e.trip == tid && e.event_type == ty)).map f).foldl (· + ·) 0

/-- The aggregation invariant for one trip row against one event table: each
stored total equals the specification's sum for the corresponding event type. -/
def totalsSpecAt (evs : List TripEvent) (t : Trip) : Prop :=
  t.total_driving_hours = specSum evs t.id "driving" (fun e => e.duration)
  ∧ t.total_on_duty_hours = specSum evs t.id "on_duty" (fun e => e.duration)
  ∧ t.total_off_duty_hours = specSum evs t.id "off_duty" (fun e => e.duration)
  ∧ t.total_sleeper_hours = specSum evs t.id "sleeper" (fun e => e.duration)
  ∧ t.total_miles_driving = specSum evs t.id "driving" (fun e => e.miles_driven)

/-- `Trip.destination_location` (`track/models.py`): the most-recent event of
the trip (`order_by("-timestamp").first()`) among those whose `event_type` is
in `drivingBoundaryTypes`; `none` when no event matches.  `lastByTimestamp`
mimics the descending stable order: among equal timestamps the earlier row
wins, and a strictly later timestamp replaces the current candidate. -/
def lastByTimestamp : List TripEvent → Option TripEvent
  | [] => none
  | e :: rest =>
    match lastByTimestamp rest with
    | none => some e
    | some m => if m.timestamp > e.timestamp then some m else some e

/-- `Trip.destination_location`: returns the matched event's location id. -/
def destination_location (st : Store) (t : Trip) : Option Nat :=
  (lastByTimestamp
    ((eventsOf st t.id).filter
      (fun e => drivingBoundaryTypes.contains e.event_type))).map
    (fun e => e.location)

/-- Exceptions that can escape the serializer layer. -/
inductive PyErr where
  | attributeError
  | validationError
  | integrityError
deriving Repr, DecidableEq

/-- `track/serializers.py` line 4 reads `from time import timezone`: the
module-level name `timezone` is bound to `time.timezone`, the *integer* local
UTC offset in seconds, not the `django.utils.timezone` module. -/
def time_timezone : Int := 0

/-- Evaluating `timezone.now()` in `track/serializers.py`: an attribute
lookup of `now` on the integer `time_timezone`, which raises
`AttributeError`. -/
def timezoneNow : Except PyErr Int := .error .attributeError

/-- The embedded location dictionary handled by `LocationSerializer`. -/
structure LocationData where
  address : String
  latitude : ℚ
  longitude : ℚ
  city : String := ""
  loc_state : String := ""
  country : String := "USA"
  postal_code : String := ""
deriving Repr, DecidableEq

/-- `LocationSerializer.is_valid()`: the model field validators
(`track/models.py`: latitude in [-90, 90], longitude in [-180, 180]) plus the
uniqueness validator the framework attaches to the `address` field because it
is declared `unique=True` — a payload whose address matches an existing
`Location` row fails validation. -/
def locationIsValid (st : Store) (d : LocationData) : Bool :=
  (-90 ≤ d.latitude) && (d.latitude ≤ 90) && (-180 ≤ d.longitude)
    && (d.longitude ≤ 180)
    && !(st.locations.any (fun l => l.address == d.address))

/-- `LocationSerializer.create`: `Location.objects.get_or_create` keyed by
`address`, with the validated data as defaults for a fresh row. -/
def getOrCreateLocation (st : Store) (d : LocationData) : Store × Location :=
  match st.locations.find? (fun l => l.address == d.address) with
  | some l => (st, l)
  | none =>
    let l : Location :=
      { id := st.nextId, address := d.address, latitude := d.latitude,
        longitude := d.longitude, city := d.city, loc_state := d.loc_state,
        country := d.country, postal_code := d.postal_code }
    ({ st with locations := st.locations ++ [l], nextId := st.nextId + 1 }, l)

/-- The request body handled by `TripEventCreateSerializer`: event fields plus
the nested `location_data` dictionary. -/
structure TripEventData where
  event_type : String
  timestamp : Int
  duration : ℚ := 0
  miles_driven : ℚ := 0
  notes : String := ""
  location_data : LocationData
deriving Repr, DecidableEq

/-- `TripEventCreateSerializer.is_valid()`: model-field validation of the
event fields (`event_type` within `EVENT_TYPE_CHOICES`, `duration ≥ 0` and
`miles_driven ≥ 0` from `MinValueValidator(0)`).  `location_data` is a plain
`DictField`, so its contents are not validated at this stage. -/
def tripEventDataIsValid (d : TripEventData) : Bool :=
  eventTypeKeys.contains d.event_type && (0 ≤ d.duration) && (0 ≤ d.miles_driven)

/-- `TripEventCreateSerializer.create` followed by the model `save`: validate
the nested location (raising `ValidationError` when invalid), get-or-create
the `Location` by address, then `TripEvent.objects.create(...)`, whose `save`
triggers `calculate_totals` on the parent trip. -/
def tripEventCreateSave (st : Store) (tripId : Nat) (d : TripEventData) :
    Except PyErr (Store × TripEvent) :=
  if locationIsValid st d.location_data then
    let r := getOrCreateLocation st d.location_data
    let e : TripEvent :=
      { id := r.1.nextId, trip := tripId, location := r.2.id,
        event_type := d.event_type, timestamp := d.timestamp,
        duration := d.duration, miles_driven := d.miles_driven,
        notes := d.notes }
    let st2 := { r.1 with nextId := r.1.nextId + 1 }
    .ok (tripEventInsert st2 e, e)
  else
    .error .validationError

/-- `POST /trips/{id}/add-event` (`TripViewSet.add_event`): validate, then
save with `trip=trip`; invalid payloads get a 400 and change nothing, and an
exception from `create` (invalid nested location) propagates with nothing
persisted. -/
def addEventEndpoint (st : Store) (tripId : Nat) (d : TripEventData) :
    Store × Option TripEvent :=
  if tripEventDataIsValid d then
    match tripEventCreateSave st tripId d with
    | .ok (st', e) => (st', some e)
    | .error _ => (st, none)
  else
    (st, none)

/-- The validated request body handled by `TripCreateSerializer`: the
`Meta.fields` of `track/serializers.py` (note `total_mileage_today` is among
them, while the other five `total_*` metrics are not). -/
structure TripCreateRequest where
  date : Int
  driver : Option Nat := none
  co_driver : Option Nat := none
  vehicle : Option Nat := none
  shipper_and_commodity : String := ""
  cycle_rule : String := "70hr/8day"
  total_mileage_today : ℚ := 0
  remarks : String := ""
  initial_events : List TripEventData := []
  current_location : Option LocationData := none
  pickup_location : Option LocationData := none
  dropoff_location : Option LocationData := none
  driver_initial : Option String := none
  carrier_name : Option String := none
  truck_number : Option String := none
deriving Repr, DecidableEq

/-- The legacy-location block of `TripCreateSerializer.create`: each supplied
legacy field is turned into an event dictionary timestamped with
`timezone.now()` (which raises, see `timezoneNow`). -/
def legacyEvent (d : LocationData) (ty note : String) :
    Except PyErr TripEventData :=
  match timezoneNow with
  | .error err => .error err
  | .ok ts =>
    .ok { event_type := ty, timestamp := ts, duration := 0, miles_driven := 0,
          notes := note, location_data := d }

/-- One optional legacy field: absent contributes no event; present builds
one event dictionary (propagating the `timezone.now()` exception). -/
def legacyList (o : Option LocationData) (ty note : String) :
    Except PyErr (List TripEventData) :=
  match o with
  | none => .ok []
  | some d =>
    match legacyEvent d ty note with
    | .error err => .error err
    | .ok e => .ok [e]

/-- Collect the legacy-location events of a trip-creation request, in source
order: `current_location` (type `"other"`), `pickup_location` (`"loading"`),
`dropoff_location` (`"unloading"`). -/
def legacyEvents (req : TripCreateRequest) : Except PyErr (List TripEventData) :=
  match legacyList req.current_location "other" "Current location" with
  | .error err => .error err
  | .ok l1 =>
    match legacyList req.pickup_location "loading" "Pickup location" with
    | .error err => .error err
    | .ok l2 =>
      match legacyList req.dropoff_location "unloading" "Dropoff location" with
      | .error err => .error err
      | .ok l3 => .ok (l1 ++ l2 ++ l3)

/-- Python truthiness of an optional string (`None` and `""` are falsy). -/
def pyTruthy : Option String → Bool
  | none => false
  | some s => s != ""

/-- Driver resolution in `TripCreateSerializer.create`: only when
`driver_initial` is truthy and no explicit `driver` was supplied,
`Driver.objects.get_or_create` keyed by `driver_initial` (placeholder
`full_name` and `license_number` for a fresh row). -/
def resolveDriver (st : Store) (driver_initial : Option String)
    (driver : Option Nat) : Store × Option Nat :=
  if pyTruthy driver_initial && driver.isNone then
    let di := driver_initial.getD ""
    match st.drivers.find? (fun d => d.driver_initial == di) with
    | some d => (st, some d.id)
    | none =>
      let d : Driver :=
        { id := st.nextId, driver_initial := di, full_name := di,
          license_number := "LIC_" ++ di }
      ({ st with drivers := st.drivers ++ [d], nextId := st.nextId + 1 }, some d.id)
  else
    (st, driver)

/-- Carrier fallback in `TripCreateSerializer.create` when no `carrier_name`
is supplied: `Carrier.objects.first()`, else create the placeholder
`"Default Carrier"`. -/
def resolveCarrierNoName (st : Store) : Store × Carrier :=
  match st.carriers.head? with
  | some c => (st, c)
  | none =>
    let c : Carrier :=
      { id := st.nextId, name := "Default Carrier", dot_number := "DOT_DEFAULT" }
    ({ st with carriers := st.carriers ++ [c], nextId := st.nextId + 1 }, c)

/-- Carrier resolution in `TripCreateSerializer.create`: by
`Carrier.objects.get_or_create(name=carrier_name, ...)` when `carrier_name`
is truthy, otherwise the fallback `resolveCarrierNoName`. -/
def resolveCarrier (st : Store) (carrier_name : Option String) : Store × Carrier :=
  if pyTruthy carrier_name then
    let cn := carrier_name.getD ""
    match st.carriers.find? (fun c => c.name == cn) with
    | some c => (st, c)
    | none =>
      let c : Carrier :=
        { id := st.nextId, name := cn, dot_number := "DOT_" ++ cn.take 10 }
      ({ st with carriers := st.carriers ++ [c], nextId := st.nextId + 1 }, c)
  else
    resolveCarrierNoName st

/-- Vehicle resolution in `TripCreateSerializer.create`: only when
`truck_number` is truthy and no explicit `vehicle` was supplied, resolve a
carrier and `Vehicle.objects.get_or_create` keyed by `truck_number` with that
carrier as default. -/
def resolveVehicle (st : Store) (truck_number carrier_name : Option String)
    (vehicle : Option Nat) : Store × Option Nat :=
  if pyTruthy truck_number && vehicle.isNone then
    let tn := truck_number.getD ""
    let r := resolveCarrier st carrier_name
    match r.1.vehicles.find? (fun v => v.truck_number == tn) with
    | some v => (r.1, some v.id)
    | none =>
      let v : Vehicle := { id := r.1.nextId, truck_number := tn, carrier := r.2.id }
      ({ r.1 with vehicles := r.1.vehicles ++ [v], nextId := r.1.nextId + 1 }, some v.id)
  else
    (st, vehicle)

/-- The nested-event loop at the end of `TripCreateSerializer.create`: for
each event dictionary, `if event_serializer.is_valid(): save` — an event that
fails validation is silently skipped, while an exception raised inside `save`
(for example an invalid nested location) propagates. -/
def processEvents (tripId : Nat) : List TripEventData → Store → Except PyErr Store
  | [], st => .ok st
  | d :: rest, st =>
    if tripEventDataIsValid d then
      match tripEventCreateSave st tripId d with
      | .ok (st', _) => processEvents tripId rest st'
      | .error err => .error err
    else
      processEvents tripId rest st

/-- `TripCreateSerializer.create` (`track/serializers.py`): build the legacy
events, resolve driver and vehicle shorthands, create the `Trip` row
(`IntegrityError` when it would have no driver or vehicle), then run the
nested-event loop.  Returns the final store and the created trip's id. -/
def tripCreate (st : Store) (req : TripCreateRequest) :
    Except PyErr (Store × Nat) :=
  match legacyEvents req with
  | .error err => .error err
  | .ok legacy =>
    let r1 := resolveDriver st req.driver_initial req.driver
    let r2 := resolveVehicle r1.1 req.truck_number req.carrier_name req.vehicle
    match r1.2, r2.2 with
    | some dr, some vh =>
      let trip : Trip :=
        { id := r2.1.nextId, date := req.date, driver := dr,
          co_driver := req.co_driver, vehicle := vh,
          shipper_and_commodity := req.shipper_and_commodity,
          cycle_rule := req.cycle_rule,
          total_mileage_today := req.total_mileage_today,
          remarks := req.remarks }
      let st3 :=
        { r2.1 with trips := r2.1.trips ++ [trip], nextId := r2.1.nextId + 1 }
      match processEvents trip.id (req.initial_events ++ legacy) st3 with
      | .error err => .error err
      | .ok st4 => .ok (st4, trip.id)
    | _, _ => .error .integrityError

/-- `Trip.CYCLE_RULE_CHOICES` keys (`track/models.py`). -/
def cycleRuleKeys : List String := ["70hr/8day", "60hr/7day"]

/-- `TripCreateSerializer.is_valid()`, run by the create view before
`create()`: `driver` and `vehicle` are serializer-generated primary-key
fields over non-null foreign keys, hence required and checked against
existing rows (`co_driver` is nullable but must exist when supplied);
`cycle_rule` is a choice field; `initial_events` is a nested
`TripEventCreateSerializer(many=True)` field, so every entry is
field-validated (`tripEventDataIsValid`).  The shorthand and legacy fields
are free-form and need no validation here. -/
def tripRequestIsValid (st : Store) (req : TripCreateRequest) : Bool :=
  (match req.driver with
   | some d => st.drivers.any (fun x => x.id == d)
   | none => false)
  && (match req.vehicle with
      | some v => st.vehicles.any (fun x => x.id == v)
      | none => false)
  && (match req.co_driver with
      | some c => st.drivers.any (fun x => x.id == c)
      | none => true)
  && cycleRuleKeys.contains req.cycle_rule
  && req.initial_events.all (fun d => tripEventDataIsValid d)

/-- `POST /trips`: the create view runs `TripCreateSerializer.is_valid`
with `raise_exception=True` — an invalid request is rejected with a 400 and
nothing runs; only then does `create` run, wrapped in `@transaction.atomic`,
so any exception there rolls the store back to its initial state and no trip
id is returned. -/
def tripCreateEndpoint (st : Store) (req : TripCreateRequest) :
    Store × Option Nat :=
  if tripRequestIsValid st req then
    match tripCreate st req with
    | .ok (st', tid) => (st', some tid)
    | .error _ => (st, none)
  else
    (st, none)

/-- ASCII lowercase of one character (`A`-`Z` to `a`-`z`). -/
def charLower (c : Char) : Char :=
  if 65 ≤ c.toNat ∧ c.toNat ≤ 90 then Char.ofNat (c.toNat + 32) else c

/-- Does `needle` start `hay`? -/
def leadsWith : List Char → List Char → Bool
  | [], _ => true
  | _ :: _, [] => false
  | a :: as, b :: bs => a == b && leadsWith as bs

/-- Does `needle` occur as a contiguous segment of `hay`? -/
def hasSeg (needle : List Char) : List Char → Bool
  | [] => needle.isEmpty
  | b :: bs => leadsWith needle (b :: bs) || hasSeg needle bs

/-- Django's `address__icontains=q`: case-insensitive (ASCII) substring
containment. -/
def icontains (hay needle : String) : Bool :=
  hasSeg (needle.toList.map charLower) (hay.toList.map charLower)

/-- `LocationViewSet.search` (`track/views.py`): `q` defaults to `""`; when
`q` is truthy, filter the queryset (ordered by address, `Location.Meta`) by
`address__icontains=q` and keep the first 10; otherwise return `[]`. -/
def locationSearch (st : Store) (q : Option String) : List Location :=
  let query := q.getD ""
  if query != "" then
    ((st.locations.mergeSort (fun a b => a.address ≤ b.address)).filter
      (fun l => icontains l.address query)).take 10
  else
    []

/-- `TripSerializer.Meta.fields` (`track/serializers.py`). -/
def tripSerializerFields : List String :=
  ["id", "date", "driver", "driver_name", "co_driver", "co_driver_name",
   "vehicle", "vehicle_info", "carrier_name", "shipper_and_commodity",
   "cycle_rule", "total_miles_driving", "total_mileage_today",
   "total_driving_hours", "total_on_duty_hours", "total_off_duty_hours",
   "total_sleeper_hours", "cycle_hours_used", "remarks", "is_completed",
   "events", "events_count", "origin_location", "destination_location",
   "current_location", "pickup_location", "dropoff_location", "created_at",
   "updated_at"]

/-- `TripSerializer.Meta.read_only_fields` (`track/serializers.py`). -/
def tripSerializerReadOnlyFields : List String :=
  ["total_miles_driving", "total_driving_hours", "total_on_duty_hours",
   "total_off_duty_hours", "total_sleeper_hours", "cycle_hours_used"]

/-- `TripCreateSerializer.Meta.fields` (`track/serializers.py`);
`TripCreateSerializer` declares no `read_only_fields`. -/
def tripCreateSerializerFields : List String :=
  ["date", "driver", "co_driver", "vehicle", "shipper_and_commodity",
   "cycle_rule", "total_mileage_today", "remarks", "initial_events",
   "current_location", "pickup_location", "dropoff_location",
   "driver_initial", "carrier_name", "truck_number"]

/-- The six derived totals named by the specification. -/
def derivedTotals : List String :=
  ["total_miles_driving", "total_mileage_today", "total_driving_hours",
   "total_on_duty_hours", "total_off_duty_hours", "total_sleeper_hours"]

/-- The fields of a serializer a client can write: declared fields minus the
read-only ones. -/
def writableFields (fields read_only : List String) : List String :=
  fields.filter (fun f => !(read_only.contains f))

/-- Concrete fixture: a location row. -/
def locW : Location := { id := 1, address := "123 Main St", latitude := 10, longitude := 20 }

/-- Concrete fixture: a trip row (driver 1, vehicle 1). -/
def tripW : Trip := { id := 2, date := 0, driver := 1, vehicle := 1 }

/-- Concrete fixture: a store holding one location and one trip. -/
def storeW : Store := { locations := [locW], trips := [tripW], nextId := 3 }

/-- Concrete fixture: a fresh driving event for `tripW`. -/
def eventW : TripEvent :=
  { id := 3, trip := 2, location := 1, event_type := "driving",
    timestamp := 5, duration := 2, miles_driven := 10 }

/-- Concrete fixture: an already-persisted driving event for `tripW`. -/
def eventW0 : TripEvent :=
  { id := 3, trip := 2, location := 1, event_type := "driving",
    timestamp := 5, duration := 1, miles_driven := 5 }

/-- Concrete fixture: `storeW` with `eventW0` persisted. -/
def storeW2 : Store :=
  { locations := [locW], trips := [tripW], events := [eventW0], nextId := 4 }

/-- Concrete fixture: the re-saved version of `eventW0` with a new duration. -/
def eventW1 : TripEvent := { eventW0 with duration := 4 }

/-- Concrete fixture: an event payload whose embedded location matches
`locW`'s address. -/
def eventDataW : TripEventData :=
  { event_type := "loading", timestamp := 7, duration := 0, miles_driven := 0,
    location_data := { address := "123 Main St", latitude := 1, longitude := 2 } }

/-- Concrete fixture: a driver row. -/
def driverC : Driver :=
  { id := 1, driver_initial := "AB", full_name := "A B", license_number := "L1" }

/-- Concrete fixture: a carrier row. -/
def carrierC : Carrier := { id := 2, name := "Acme", dot_number := "D1" }

/-- Concrete fixture: a vehicle row of `carrierC`. -/
def vehicleC : Vehicle := { id := 3, truck_number := "T1", carrier := 2 }

/-- Concrete fixture: a store with one driver, carrier and vehicle and no
trips or events. -/
def storeC : Store :=
  { drivers := [driverC], carriers := [carrierC], vehicles := [vehicleC], nextId := 4 }

/-- Concrete fixture: an event payload failing validation (negative
duration). -/
def badEventData : TripEventData :=
  { event_type := "driving", timestamp := 0, duration := -1, miles_driven := 0,
    location_data := { address := "A1", latitude := 0, longitude := 0 } }

/-- Concrete fixture: a trip-creation request with an explicit driver and
vehicle and one invalid nested initial event. -/
def reqBadEvent : TripCreateRequest :=
  { date := 0, driver := some 1, vehicle := some 3,
    initial_events := [badEventData] }

/-- Concrete fixture: a trip-creation request supplying the legacy
`current_location` field. -/
def reqLegacy : TripCreateRequest :=
  { date := 0, driver := some 1, vehicle := some 3,
    current_location := some { address := "B2", latitude := 0, longitude := 0 } }

/-- Concrete fixture: the shorthand-only intake request of the
specification's example (`driver_initial="AB"`, `truck_number="TRK-1"`). -/
def reqShorthand : TripCreateRequest :=
  { date := 0, driver_initial := some "AB", truck_number := some "TRK-1" }

/-- Concrete fixture: an empty store. -/
def storeEmpty : Store := {}

/-- The reference triple (primary key, driver, vehicle) of each trip row:
the part of the trips table the aggregation engine never touches. -/
def tripRefs (st : Store) : List (Nat × Nat × Nat) :=
  st.trips.map (fun t => (t.id, t.driver, t.vehicle))

/-- Concrete fixture: a creation request supplying the writable
`total_mileage_today` field. -/
def reqMileage : TripCreateRequest :=
  { date := 0, driver := some 1, vehicle := some 3, total_mileage_today := 123 }

/-- Concrete fixture: `tripW` as it stands after `eventW1` is re-saved
(driving hours 4, driving miles 5). -/
def tripWUpdated : Trip :=
  { tripW with total_driving_hours := 4, total_miles_driving := 5 }

theorem pyOrQ_sqlSum (f : TripEvent → ℚ) (l : List TripEvent) :
    pyOrQ (sqlSum f l) 0 = (l.map f).foldl (· + ·) 0 := by
  cases l with
  | nil => simp [sqlSum, pyOrQ]
  | cons a t =>
    simp only [sqlSum, pyOrQ]
    split
    · next h => exact h.symm
    · rfl

theorem filter_eventsOf (st : Store) (tid : Nat) (ty : String) :
    (eventsOf st tid).filter (fun e => e.event_type == ty)
      = st.events.filter (fun e => e.trip == tid && e.event_type == ty) := by
  simp only [eventsOf, List.filter_filter]
  congr 1
  funext a
  exact Bool.and_comm _ _

theorem calcTotals_driving (st : Store) (t : Trip) :
    (calcTotals st t).total_driving_hours
      = specSum st.events t.id "driving" (fun e => e.duration) := by
  simp [calcTotals, specSum, pyOrQ_sqlSum, filter_eventsOf]

theorem calcTotals_spec (st : Store) (t : Trip) :
    (calcTotals st t).total_driving_hours
        = specSum st.events t.id "driving" (fun e => e.duration)
      ∧ (calcTotals st t).total_on_duty_hours
        = specSum st.events t.id "on_duty" (fun e => e.duration)
      ∧ (calcTotals st t).total_off_duty_hours
        = specSum st.events t.id "off_duty" (fun e => e.duration)
      ∧ (calcTotals st t).total_sleeper_hours
        = specSum st.events t.id "sleeper" (fun e => e.duration)
      ∧ (calcTotals st t).total_miles_driving
        = specSum st.events t.id "driving" (fun e => e.miles_driven)
      ∧ (calcTotals st t).id = t.id := by
  refine ⟨?_, ?_, ?_, ?_, ?_, ?_⟩ <;>
    simp [calcTotals, specSum, pyOrQ_sqlSum, filter_eventsOf]

theorem calcTotals_id (st : Store) (t : Trip) : (calcTotals st t).id = t.id := rfl

theorem calculate_totals_events (st : Store) (tid : Nat) :
    (calculate_totals st tid).events = st.events := by
  unfold calculate_totals
  cases st.trips.find? (fun t => t.id == tid) <;> rfl

theorem totalsSpecAt_calcTotals (st : Store) (u : Trip) :
    totalsSpecAt st.events (calcTotals st u) := by
  have h := calcTotals_spec st u
  refine ⟨?_, ?_, ?_, ?_, ?_⟩ <;>
    simp only [calcTotals_id, h.1, h.2.1, h.2.2.1, h.2.2.2.1, h.2.2.2.2.1]

theorem totals_after_calculate_totals (st : Store) (tid : Nat)
    (h : ∃ t ∈ st.trips, t.id = tid) :
    ∀ t' ∈ (calculate_totals st tid).trips, t'.id = tid →
      totalsSpecAt (calculate_totals st tid).events t' := by
  obtain ⟨t0, ht0, hid⟩ := h
  have hsome : (st.trips.find? (fun t => t.id == tid)).isSome := by
    rw [List.find?_isSome]
    exact ⟨t0, ht0, by simp [hid]⟩
  obtain ⟨u, hu⟩ := Option.isSome_iff_exists.mp hsome
  have huid : u.id = tid := by simpa using List.find?_some hu
  intro t' ht' htid
  rw [calculate_totals_events]
  unfold calculate_totals at ht'
  rw [hu] at ht'
  simp only [saveTrip] at ht'
  obtain ⟨v, hv, heq⟩ := List.mem_map.mp ht'
  by_cases hcase : v.id == (calcTotals st u).id
  · rw [if_pos hcase] at heq
    rw [← heq]
    exact totalsSpecAt_calcTotals st u
  · rw [if_neg hcase] at heq
    exfalso
    apply hcase
    rw [heq, calcTotals_id, huid, htid]
    exact beq_self_eq_true tid

/-- C2: immediately after every successful save of a `TripEvent`, the parent
trip's stored totals equal the per-event-type sums of `duration` (and of
`miles_driven` for `"driving"`) over the trip's events, and any such sum over
zero matching events is exactly `0`, never null. -/
theorem totals_match_sums_after_event_save (st : Store) (e : TripEvent)
    (h : ∃ t ∈ st.trips, t.id = e.trip) :
    (∀ t' ∈ (tripEventInsert st e).trips, t'.id = e.trip →
        totalsSpecAt (tripEventInsert st e).events t')
    ∧ (∀ t' ∈ (tripEventUpdateSave st e).trips, t'.id = e.trip →
        totalsSpecAt (tripEventUpdateSave st e).events t')
    ∧ (∀ (evs : List TripEvent) (tid : Nat) (ty : String) (f : TripEvent → ℚ),
        evs.filter (fun x => x.trip == tid && x.event_type == ty) = [] →
        specSum evs tid ty f = 0) := by
  obtain ⟨t0, ht0, hid⟩ := h
  refine ⟨?_, ?_, ?_⟩
  · exact totals_after_calculate_totals
      { st with events := st.events ++ [e] } e.trip ⟨t0, ht0, hid⟩
  · exact totals_after_calculate_totals
      { st with events := st.events.map (fun u => if u.id == e.id then e else u) }
      e.trip ⟨t0, ht0, hid⟩
  · intro evs tid ty f hf
    simp [specSum, hf]

theorem totals_match_sums_after_event_save_witness :
    (∀ t' ∈ (tripEventInsert storeW eventW).trips, t'.id = eventW.trip →
        totalsSpecAt (tripEventInsert storeW eventW).events t')
    ∧ (∀ t' ∈ (tripEventUpdateSave storeW eventW).trips, t'.id = eventW.trip →
        totalsSpecAt (tripEventUpdateSave storeW eventW).events t')
    ∧ (∀ (evs : List TripEvent) (tid : Nat) (ty : String) (f : TripEvent → ℚ),
        evs.filter (fun x => x.trip == tid && x.event_type == ty) = [] →
        specSum evs tid ty f = 0) :=
  totals_match_sums_after_event_save storeW eventW
    ⟨tripW, by simp [storeW], rfl⟩

/-- C10: re-saving an existing `TripEvent` (an update, not only an insert)
also triggers the full recompute-and-persist of the parent trip's totals, so
the aggregation invariant holds immediately after event updates as well. -/
theorem totals_recomputed_after_event_update (st : Store) (e : TripEvent)
    (_hex : ∃ e0 ∈ st.events, e0.id = e.id)
    (h : ∃ t ∈ st.trips, t.id = e.trip) :
    ∀ t' ∈ (tripEventUpdateSave st e).trips, t'.id = e.trip →
      totalsSpecAt (tripEventUpdateSave st e).events t' := by
  obtain ⟨t0, ht0, hid⟩ := h
  exact totals_after_calculate_totals
    { st with events := st.events.map (fun u => if u.id == e.id then e else u) }
    e.trip ⟨t0, ht0, hid⟩

theorem totals_recomputed_after_event_update_witness :
    totalsSpecAt (tripEventUpdateSave storeW2 eventW1).events tripWUpdated :=
  totals_recomputed_after_event_update storeW2 eventW1
    ⟨eventW0, by simp [storeW2], rfl⟩
    ⟨tripW, by simp [storeW2], rfl⟩
    tripWUpdated
    (by
      simp [tripEventUpdateSave, calculate_totals, saveTrip, calcTotals,
        eventsOf, sqlSum, pyOrQ, storeW2, eventW0, eventW1, tripW, tripWUpdated,
        List.find?])
    rfl

theorem lastByTimestamp_eq_none (l : List TripEvent) :
    lastByTimestamp l = none ↔ l = [] := by
  cases l with
  | nil => simp [lastByTimestamp]
  | cons e rest =>
    constructor
    · intro h
      unfold lastByTimestamp at h
      split at h
      · simp at h
      · split at h <;> simp at h
    · intro h
      simp at h

theorem lastByTimestamp_spec :
    ∀ (l : List TripEvent) (m : TripEvent), lastByTimestamp l = some m →
      m ∈ l ∧ ∀ x ∈ l, x.timestamp ≤ m.timestamp := by
  intro l
  induction l with
  | nil => intro m h; simp [lastByTimestamp] at h
  | cons e rest ih =>
    intro m h
    unfold lastByTimestamp at h
    split at h
    · next heq =>
      simp only [Option.some.injEq] at h
      subst h
      have hnil := (lastByTimestamp_eq_none rest).mp heq
      subst hnil
      exact ⟨by simp, by simp⟩
    · next m' heq =>
      obtain ⟨hmem', hmax'⟩ := ih m' heq
      split at h
      · next hc =>
        simp only [Option.some.injEq] at h
        subst h
        refine ⟨List.mem_cons_of_mem e hmem', ?_⟩
        intro x hx
        rcases List.mem_cons.mp hx with hx | hx
        · subst hx; exact le_of_lt hc
        · exact hmax' x hx
      · next hc =>
        simp only [Option.some.injEq] at h
        subst h
        refine ⟨List.mem_cons_self _ _, ?_⟩
        intro x hx
        rcases List.mem_cons.mp hx with hx | hx
        · subst hx; exact le_refl _
        · exact le_trans (hmax' x hx) (not_lt.mp hc)

theorem mem_boundary_filter (st : Store) (t : Trip) (e : TripEvent) :
    e ∈ (eventsOf st t.id).filter
        (fun x => drivingBoundaryTypes.contains x.event_type)
      ↔ e ∈ st.events ∧ e.trip = t.id ∧ e.event_type ∈ drivingBoundaryTypes := by
  simp only [eventsOf, List.mem_filter, List.filter_filter]
  constructor
  · rintro ⟨hmem, hb⟩
    simp only [Bool.and_eq_true, beq_iff_eq] at hb
    refine ⟨hmem, hb.2, by simpa using hb.1⟩
  · rintro ⟨hmem, ht, hb⟩
    exact ⟨hmem, by simp [ht, hb]⟩

/-- C5: `destination_location` returns the location of the most-recent event
(by descending timestamp) whose type is in `drivingBoundaryTypes`, `none`
when no event matches; in particular it is `none` for every trip all of whose
events draw their type from the declared eleven-member vocabulary. -/
theorem destination_location_spec (st : Store) (t : Trip) :
    ((∀ e ∈ st.events, e.trip = t.id → e.event_type ∈ eventTypeKeys) →
        destination_location st t = none)
    ∧ ((¬ ∃ e ∈ st.events, e.trip = t.id ∧ e.event_type ∈ drivingBoundaryTypes) →
        destination_location st t = none)
    ∧ (∀ loc, destination_location st t = some loc →
        ∃ e ∈ st.events, e.trip = t.id ∧ e.event_type ∈ drivingBoundaryTypes
          ∧ e.location = loc
          ∧ ∀ e' ∈ st.events, e'.trip = t.id →
              e'.event_type ∈ drivingBoundaryTypes →
              e'.timestamp ≤ e.timestamp) := by
  have hdisj : ∀ s ∈ eventTypeKeys, s ∉ drivingBoundaryTypes := by decide
  have hnomatch :
      (¬ ∃ e ∈ st.events, e.trip = t.id ∧ e.event_type ∈ drivingBoundaryTypes) →
      destination_location st t = none := by
    intro hno
    have hnil : (eventsOf st t.id).filter
        (fun x => drivingBoundaryTypes.contains x.event_type) = [] := by
      rw [List.filter_eq_nil_iff]
      intro e he hcontra
      exact hno ⟨e, ((mem_boundary_filter st t e).mp
        (List.mem_filter.mpr ⟨he, hcontra⟩)).1,
        ((mem_boundary_filter st t e).mp
          (List.mem_filter.mpr ⟨he, hcontra⟩)).2⟩
    unfold destination_location
    rw [hnil]
    rfl
  refine ⟨?_, hnomatch, ?_⟩
  · intro hvocab
    apply hnomatch
    rintro ⟨e, hmem, htrip, hbdry⟩
    exact hdisj e.event_type (hvocab e hmem htrip) hbdry
  · intro loc hloc
    unfold destination_location at hloc
    obtain ⟨m, hm, hmloc⟩ := Option.map_eq_some'.mp hloc
    obtain ⟨hmmem, hmmax⟩ := lastByTimestamp_spec _ m hm
    obtain ⟨hms, hmt, hmb⟩ := (mem_boundary_filter st t m).mp hmmem
    refine ⟨m, hms, hmt, hmb, hmloc, ?_⟩
    intro e' he' ht' hb'
    exact hmmax e' ((mem_boundary_filter st t e').mpr ⟨he', ht', hb'⟩)

theorem destination_location_spec_witness :
    destination_location storeW2 tripW = none :=
  (destination_location_spec storeW2 tripW).1 (by decide)

/-- C9: `GET /locations/search` returns at most 10 locations, each returned
address contains the query case-insensitively, and an omitted or empty query
yields the empty list. -/
theorem location_search_spec (st : Store) (q : Option String) :
    (locationSearch st q).length ≤ 10
    ∧ (∀ l ∈ locationSearch st q, icontains l.address (q.getD "") = true)
    ∧ ((q = none ∨ q = some "") → locationSearch st q = []) := by
  refine ⟨?_, ?_, ?_⟩
  · simp only [locationSearch]
    split
    · simp [List.length_take]
    · simp
  · intro l hl
    simp only [locationSearch] at hl
    split at hl
    · exact (List.mem_filter.mp (List.mem_of_mem_take hl)).2
    · simp at hl
  · rintro (hq | hq) <;> subst hq <;> rfl

theorem location_search_spec_witness :
    locationSearch storeW (some "") = []
    ∧ (locationSearch storeW (some "Main")).length ≤ 10
    ∧ (∀ l ∈ locationSearch storeW (some "Main"),
        icontains l.address ((some "Main").getD "") = true) :=
  ⟨(location_search_spec storeW (some "")).2.2 (Or.inr rfl),
   (location_search_spec storeW (some "Main")).1,
   (location_search_spec storeW (some "Main")).2.1⟩

theorem icontains_example :
    icontains "123 Main St" "mAIn" = true ∧ icontains "123 Main St" "Elm" = false := by
  constructor <;> rfl

theorem getOrCreateLocation_trips (st : Store) (d : LocationData) :
    (getOrCreateLocation st d).1.trips = st.trips := by
  unfold getOrCreateLocation
  cases st.locations.find? (fun l => l.address == d.address) <;> rfl

theorem calculate_totals_trips_length (st : Store) (tid : Nat) :
    (calculate_totals st tid).trips.length = st.trips.length := by
  unfold calculate_totals
  cases st.trips.find? (fun t => t.id == tid) with
  | none => rfl
  | some t => simp [saveTrip]

theorem tripEventInsert_events (st : Store) (e : TripEvent) :
    (tripEventInsert st e).events = st.events ++ [e] := by
  unfold tripEventInsert
  rw [calculate_totals_events]

theorem tripEventInsert_trips_length (st : Store) (e : TripEvent) :
    (tripEventInsert st e).trips.length = st.trips.length := by
  unfold tripEventInsert
  rw [calculate_totals_trips_length]

/-- C3 (observed behavior): supplying any of the three legacy location fields
makes `TripCreateSerializer.create` evaluate `timezone.now()`, which raises
`AttributeError` because `timezone` is the integer `time.timezone`; the
atomic wrapper then rolls the whole creation back, so no `TripEvent` is ever
created from a legacy field. -/
theorem legacy_location_fields_raise (st : Store) (req : TripCreateRequest)
    (h : req.current_location ≠ none ∨ req.pickup_location ≠ none ∨
         req.dropoff_location ≠ none) :
    tripCreate st req = Except.error PyErr.attributeError
    ∧ tripCreateEndpoint st req = (st, none) := by
  have hleg : legacyEvents req = Except.error PyErr.attributeError := by
    unfold legacyEvents legacyList legacyEvent timezoneNow
    cases hc : req.current_location with
    | some d => rfl
    | none =>
      cases hp : req.pickup_location with
      | some d => rfl
      | none =>
        cases hd : req.dropoff_location with
        | some d => rfl
        | none => simp [hc, hp, hd] at h
  constructor
  · unfold tripCreate
    rw [hleg]
  · unfold tripCreateEndpoint
    by_cases hv : tripRequestIsValid st req = true
    · rw [if_pos hv]
      unfold tripCreate
      rw [hleg]
    · rw [if_neg hv]

theorem legacy_location_fields_raise_witness :
    tripCreate storeC reqLegacy = Except.error PyErr.attributeError
    ∧ tripCreateEndpoint storeC reqLegacy = (storeC, none) :=
  legacy_location_fields_raise storeC reqLegacy (Or.inl (by decide))

theorem resolveDriver_explicit (st : Store) (di : Option String) (n : Nat) :
    resolveDriver st di (some n) = (st, some n) := by
  unfold resolveDriver
  simp

theorem resolveVehicle_explicit (st : Store) (tn cn : Option String) (n : Nat) :
    resolveVehicle st tn cn (some n) = (st, some n) := by
  unfold resolveVehicle
  simp

/-- C4 (counterexample): `total_mileage_today` — one of the six derived
totals — is client-writable: it appears among the writable fields of both
trip serializers, and a creation request carrying `total_mileage_today = 123`
stores `123` on the created trip. -/
theorem total_mileage_today_client_settable :
    "total_mileage_today" ∈ writableFields tripCreateSerializerFields []
    ∧ "total_mileage_today" ∈
        writableFields tripSerializerFields tripSerializerReadOnlyFields
    ∧ ((tripCreateEndpoint storeC reqMileage).1.trips.map
        (fun t => t.total_mileage_today)) = [123] := by
  refine ⟨by decide, by decide, by decide⟩

/-- C4 (amended): the five stored totals other than `total_mileage_today`
are not client-settable (read-only on update, absent from the creation
fields); `total_mileage_today` is client-writable on both serializers and is
never recomputed by the aggregation engine. -/
theorem five_totals_not_client_settable :
    (∀ f ∈ ["total_miles_driving", "total_driving_hours", "total_on_duty_hours",
            "total_off_duty_hours", "total_sleeper_hours"],
        f ∈ tripSerializerReadOnlyFields ∧ f ∉ tripCreateSerializerFields)
    ∧ (∀ st t, (calcTotals st t).total_mileage_today = t.total_mileage_today)
    ∧ "total_mileage_today" ∈
        writableFields tripSerializerFields tripSerializerReadOnlyFields := by
  exact ⟨by decide, fun st t => rfl, by decide⟩

theorem five_totals_not_client_settable_witness :
    ("total_driving_hours" ∈ tripSerializerReadOnlyFields
      ∧ "total_driving_hours" ∉ tripCreateSerializerFields)
    ∧ (calcTotals storeC tripW).total_mileage_today = tripW.total_mileage_today :=
  ⟨five_totals_not_client_settable.1 "total_driving_hours" (by decide),
   five_totals_not_client_settable.2.1 storeC tripW⟩

theorem tripRefs_calculate_totals (st : Store) (tid : Nat)
    (h : (st.trips.map (fun t => t.id)).Nodup) :
    tripRefs (calculate_totals st tid) = tripRefs st := by
  unfold calculate_totals
  cases hfind : st.trips.find? (fun t => t.id == tid) with
  | none => rfl
  | some u =>
    have humem : u ∈ st.trips := List.mem_of_find?_eq_some hfind
    simp only [tripRefs, saveTrip, List.map_map]
    apply List.map_congr_left
    intro u' hu'
    simp only [Function.comp_apply]
    by_cases hc : (u'.id == (calcTotals st u).id) = true
    · rw [if_pos hc]
      have hid : u'.id = u.id := by simpa [calcTotals_id] using hc
      have heq : u' = u := List.inj_on_of_nodup_map h hu' humem hid
      subst heq
      rfl
    · rw [if_neg hc]

theorem tripRefs_ids (st : Store) :
    st.trips.map (fun t => t.id) = (tripRefs st).map (fun p => p.1) := by
  simp [tripRefs]

theorem tripRefs_eq_of_trips_eq (st1 st2 : Store) (h : st1.trips = st2.trips) :
    tripRefs st1 = tripRefs st2 := by
  unfold tripRefs
  rw [h]

theorem tripEventInsert_tripRefs (st : Store) (e : TripEvent)
    (h : (st.trips.map (fun t => t.id)).Nodup) :
    tripRefs (tripEventInsert st e) = tripRefs st := by
  unfold tripEventInsert
  rw [tripRefs_calculate_totals { st with events := st.events ++ [e] } e.trip h]
  rfl

theorem tripEventCreateSave_tripRefs (st : Store) (tid : Nat) (d : TripEventData)
    (st' : Store) (ev : TripEvent)
    (hok : tripEventCreateSave st tid d = Except.ok (st', ev))
    (h : (st.trips.map (fun t => t.id)).Nodup) :
    tripRefs st' = tripRefs st := by
  unfold tripEventCreateSave at hok
  by_cases hval : locationIsValid st d.location_data = true
  · rw [if_pos hval] at hok
    simp only [Except.ok.injEq, Prod.mk.injEq] at hok
    rw [← hok.1]
    set r := getOrCreateLocation st d.location_data with hr
    have htrips : ({ r.1 with nextId := r.1.nextId + 1 } : Store).trips
        = st.trips := by
      show r.1.trips = st.trips
      rw [hr]
      exact getOrCreateLocation_trips st d.location_data
    have h2 : ((({ r.1 with nextId := r.1.nextId + 1 } : Store)).trips.map
        (fun t => t.id)).Nodup := by
      rw [htrips]
      exact h
    rw [tripEventInsert_tripRefs _ _ h2]
    exact tripRefs_eq_of_trips_eq _ _ htrips
  · rw [if_neg hval] at hok
    exact absurd hok (by simp)

theorem processEvents_tripRefs (tid : Nat) :
    ∀ (evs : List TripEventData) (st st' : Store),
      processEvents tid evs st = Except.ok st' →
      (st.trips.map (fun t => t.id)).Nodup →
      tripRefs st' = tripRefs st := by
  intro evs
  induction evs with
  | nil =>
    intro st st' hok _
    simp only [processEvents, Except.ok.injEq] at hok
    rw [← hok]
  | cons d rest ih =>
    intro st st' hok hnodup
    unfold processEvents at hok
    by_cases hv : tripEventDataIsValid d = true
    · rw [if_pos hv] at hok
      cases hsave : tripEventCreateSave st tid d with
      | error err => rw [hsave] at hok; exact absurd hok (by simp)
      | ok p =>
        rw [hsave] at hok
        have hrefs := tripEventCreateSave_tripRefs st tid d p.1 p.2
          (by rw [hsave]) hnodup
        have hids : (p.1.trips.map (fun t => t.id)).Nodup := by
          rw [tripRefs_ids, hrefs, ← tripRefs_ids]
          exact hnodup
        have := ih p.1 st' hok hids
        rw [this, hrefs]
    · rw [if_neg hv] at hok
      exact ih st st' hok hnodup

/-- C7: when a trip-creation request supplies an explicit driver and an
explicit vehicle reference, shorthand resolution is skipped and the created
trip references exactly the supplied driver and vehicle. -/
theorem explicit_refs_take_precedence (st : Store) (req : TripCreateRequest)
    (drid vhid : Nat)
    (hdr : req.driver = some drid) (hvh : req.vehicle = some vhid)
    (hnodup : (st.trips.map (fun t => t.id)).Nodup)
    (hfresh : ∀ t ∈ st.trips, t.id ≠ st.nextId) :
    ∀ st' tid, tripCreate st req = Except.ok (st', tid) →
      tid = st.nextId ∧ ∃ t ∈ st'.trips,
        t.id = tid ∧ t.driver = drid ∧ t.vehicle = vhid := by
  intro st' tid h
  cases hleg : legacyEvents req with
  | error err =>
    unfold tripCreate at h
    rw [hleg] at h
    exact absurd h (by simp)
  | ok legacy =>
    simp only [tripCreate, hleg, hdr, hvh, resolveDriver_explicit,
      resolveVehicle_explicit] at h
    split at h
    · exact absurd h (by simp)
    · next st4 hpe =>
      simp only [Except.ok.injEq, Prod.mk.injEq] at h
      obtain ⟨hst4, htid⟩ := h
      have hnodup3 : ((({ st with
            trips := st.trips ++
              [{ id := st.nextId, date := req.date, driver := drid,
                 co_driver := req.co_driver, vehicle := vhid,
                 shipper_and_commodity := req.shipper_and_commodity,
                 cycle_rule := req.cycle_rule,
                 total_mileage_today := req.total_mileage_today,
                 remarks := req.remarks }],
            nextId := st.nextId + 1 } : Store).trips.map (fun t => t.id))).Nodup := by
        simp only [List.map_append, List.map_cons, List.map_nil]
        rw [List.nodup_append]
        refine ⟨hnodup, List.nodup_singleton _, ?_⟩
        intro a ha hb
        rw [List.mem_singleton] at hb
        obtain ⟨t, ht, hta⟩ := List.mem_map.mp ha
        subst hb
        exact hfresh t ht hta
      have hrefs := processEvents_tripRefs st.nextId _ _ st4 hpe hnodup3
      rw [← hst4]
      refine ⟨htid.symm, ?_⟩
      have hmemref : (st.nextId, drid, vhid) ∈ tripRefs st4 := by
        rw [hrefs]
        simp [tripRefs]
      obtain ⟨t, ht, htref⟩ := List.mem_map.mp hmemref
      refine ⟨t, ht, ?_, ?_, ?_⟩
      · rw [← htid]
        exact congrArg Prod.fst htref
      · exact congrArg (fun p => p.2.1) htref
      · exact congrArg (fun p => p.2.2) htref

theorem explicit_refs_take_precedence_witness :
    (4 : Nat) = storeC.nextId
    ∧ ∃ t ∈ (tripCreateEndpoint storeC reqMileage).1.trips,
        t.id = 4 ∧ t.driver = 1 ∧ t.vehicle = 3 :=
  explicit_refs_take_precedence storeC reqMileage 1 3 rfl rfl
    (by decide) (by decide) (tripCreateEndpoint storeC reqMileage).1 4 (by rfl)

/-- C1: a trip-creation request containing a nested initial event that fails
validation (e.g., negative duration) is rejected by the serializer's
`is_valid` (raised as a 400 by the create view) before `create()` runs — the
nested `many=True` field validates every entry — so the whole creation
fails, no `Trip` and no `TripEvent` is persisted, and the final state equals
the initial state. -/
theorem invalid_nested_event_rejects_creation (st : Store)
    (req : TripCreateRequest) (d : TripEventData)
    (hmem : d ∈ req.initial_events) (hinv : tripEventDataIsValid d = false) :
    tripCreateEndpoint st req = (st, none)
    ∧ (tripCreateEndpoint st req).1.trips = st.trips
    ∧ (tripCreateEndpoint st req).1.events = st.events := by
  have hall : req.initial_events.all (fun x => tripEventDataIsValid x) = false := by
    cases h : req.initial_events.all (fun x => tripEventDataIsValid x) with
    | false => rfl
    | true =>
      have htrue := List.all_eq_true.mp h d hmem
      rw [hinv] at htrue
      exact absurd htrue (by simp)
  have hvalid : tripRequestIsValid st req = false := by
    unfold tripRequestIsValid
    rw [hall, Bool.and_false]
  have hmain : tripCreateEndpoint st req = (st, none) := by
    unfold tripCreateEndpoint
    rw [hvalid]
    simp
  exact ⟨hmain, by rw [hmain], by rw [hmain]⟩

theorem invalid_nested_event_rejects_creation_witness :
    tripCreateEndpoint storeC reqBadEvent = (storeC, none)
    ∧ (tripCreateEndpoint storeC reqBadEvent).1.trips = storeC.trips
    ∧ (tripCreateEndpoint storeC reqBadEvent).1.events = storeC.events :=
  invalid_nested_event_rejects_creation storeC reqBadEvent badEventData
    (by decide) (by decide)

/-- C6 (observed behavior): `driver` and `vehicle` are required fields of
`TripCreateSerializer` (serializer-generated primary-key fields over
non-null foreign keys), so a request that omits either one — in particular
the specification's shorthand-only example (`driver_initial="AB"`,
`truck_number="TRK-1"` into an empty store) — is rejected with a 400 before
`create()` runs and creates no `Driver`, `Carrier`, `Vehicle` or `Trip`; the
shorthand-resolution code inside `create()` is unreachable through the
endpoint. -/
theorem shorthand_only_request_rejected :
    (∀ (st : Store) (req : TripCreateRequest),
        req.driver = none ∨ req.vehicle = none →
        tripCreateEndpoint st req = (st, none))
    ∧ tripRequestIsValid storeEmpty reqShorthand = false
    ∧ tripCreateEndpoint storeEmpty reqShorthand = (storeEmpty, none)
    ∧ (tripCreateEndpoint storeEmpty reqShorthand).1.drivers = []
    ∧ (tripCreateEndpoint storeEmpty reqShorthand).1.carriers = []
    ∧ (tripCreateEndpoint storeEmpty reqShorthand).1.vehicles = []
    ∧ (tripCreateEndpoint storeEmpty reqShorthand).1.trips = [] := by
  refine ⟨?_, by decide, by decide, by decide, by decide, by decide, by decide⟩
  intro st req h
  have hvalid : tripRequestIsValid st req = false := by
    unfold tripRequestIsValid
    rcases h with h | h <;> rw [h] <;> simp
  unfold tripCreateEndpoint
  rw [hvalid]
  simp

theorem shorthand_only_request_rejected_witness :
    tripCreateEndpoint storeEmpty reqShorthand = (storeEmpty, none) :=
  shorthand_only_request_rejected.1 storeEmpty reqShorthand (Or.inl rfl)

/-- C8 (observed behavior): the `address` field's uniqueness validator makes
`LocationSerializer.is_valid()` false for an embedded location whose address
matches an existing `Location` row, so `TripEventCreateSerializer.create`
raises `ValidationError`: the creation fails, no `TripEvent` is created and
nothing resolves to the existing row — the `get_or_create` reuse path is
unreachable for duplicate addresses. -/
theorem duplicate_address_event_rejected (st : Store) (tid : Nat)
    (d : TripEventData) (l0 : Location)
    (hmem : l0 ∈ st.locations) (haddr : l0.address = d.location_data.address) :
    tripEventCreateSave st tid d = Except.error PyErr.validationError
    ∧ addEventEndpoint st tid d = (st, none) := by
  have hany : st.locations.any
      (fun l => l.address == d.location_data.address) = true := by
    rw [List.any_eq_true]
    exact ⟨l0, hmem, by simp [haddr]⟩
  have hval : locationIsValid st d.location_data = false := by
    unfold locationIsValid
    rw [hany]
    simp
  have hsave : tripEventCreateSave st tid d
      = Except.error PyErr.validationError := by
    unfold tripEventCreateSave
    rw [hval]
    simp
  refine ⟨hsave, ?_⟩
  unfold addEventEndpoint
  by_cases hd : tripEventDataIsValid d = true
  · rw [if_pos hd, hsave]
  · rw [if_neg hd]

theorem duplicate_address_event_rejected_witness :
    tripEventCreateSave storeW 2 eventDataW = Except.error PyErr.validationError
    ∧ addEventEndpoint storeW 2 eventDataW = (storeW, none) :=
  duplicate_address_event_rejected storeW 2 eventDataW locW (by decide) rfl
